import Mathlib

/-!
# Verification of `examples/example2_http_server_nodejs.js`

A shallow embedding of the Node.js JSON loopback HTTP server.  JSON values
produced by `JSON.parse` are modelled by the inductive type `JValue`
(number payloads are carried as `Int`, since no property here depends on
non-integer numerals).  `JSON.parse` itself is a Node built-in, so it is
modelled as an abstract decoder `parse : String → Except String JValue`
passed to the request handler; `.error msg` models a thrown exception whose
`message` is `msg`.  `new Date().toISOString()` is likewise external input,
carried in the request as the field `now`.
-/

/-- A decoded JSON value, as produced by `JSON.parse`. -/
inductive JValue where
  | str : String → JValue
  | num : Int → JValue
  | bool : Bool → JValue
  | null : JValue
  | arr : List JValue → JValue
  | obj : List (String × JValue) → JValue
deriving Repr

/-- JavaScript's `typeof` operator on decoded JSON values.  Note the
well-known quirks: `typeof null === 'object'` and `typeof [] === 'object'`. -/
def jsTypeof : JValue → String
  | .str _ => "string"
  | .num _ => "number"
  | .bool _ => "boolean"
  | .null => "object"
  | .arr _ => "object"
  | .obj _ => "object"

/-- JavaScript's `Array.isArray`. -/
def jsIsArray : JValue → Bool
  | .arr _ => true
  | _ => false

/-- `categorizeData` (lines 34–40 of the source): a chain of `typeof` tests,
with `Array.isArray` tested before `typeof data === 'object'`. -/
def categorizeData (data : JValue) : String :=
  if jsTypeof data = "string" then "text"
  else if jsTypeof data = "number" then "numeric"
  else if jsIsArray data then "array"
  else if jsTypeof data = "object" then "object"
  else "unknown"

/-- `const LOOPBACK_HOST = '127.0.0.1'` (line 17). -/
def LOOPBACK_HOST : String := "127.0.0.1"

/-- `const PORT = 3000` (line 18). -/
def PORT : Int := 3000

/-- The single `server.listen(PORT, LOOPBACK_HOST, ...)` call (line 141):
the complete list of (port, host) pairs the program ever binds. -/
def listenCalls : List (Int × String) := [(PORT, LOOPBACK_HOST)]

/-- The hosts bound by the program: the second components of `listenCalls`. -/
def listenHosts : List String := listenCalls.map (fun c => c.2)

/-- `const MAX_BODY_SIZE = 1024 * 1024` (the 1 MB limit in the POST branch). -/
def MAX_BODY_SIZE : Nat := 1024 * 1024

/-- One stored item (the object built in the POST `end` handler). -/
structure Item where
  id : Nat
  type : String
  data : JValue
  timestamp : String
deriving Repr

/-- `dataStore.stats` (lines 24–28). -/
structure Stats where
  totalRequests : Nat
  textItems : Nat
  numericItems : Nat
  objectItems : Nat
deriving Repr

/-- The in-memory `dataStore` (lines 21–29). -/
structure DataStore where
  items : List Item
  stats : Stats
deriving Repr

/-- The initial `dataStore`: empty items, all counters zero. -/
def initialDataStore : DataStore :=
  { items := [], stats := { totalRequests := 0, textItems := 0, numericItems := 0, objectItems := 0 } }

/-- An inbound HTTP request: method and url as the strings Node exposes,
the body as the list of chunk strings delivered by `data` events, and
`now`, the value `new Date().toISOString()` would return while handling it. -/
structure Request where
  method : String
  url : String
  chunks : List String
  now : String

/-- One call to `res.end(...)`: the HTTP status set by the preceding
`res.writeHead` and the serialized JSON body, `none` when `res.end()` is
called with no body (the OPTIONS path). -/
structure Response where
  httpStatus : Nat
  body : Option JValue
deriving Repr

/-- Serialization of an `Item` as `JSON.stringify` lays out its fields. -/
def itemToJson (it : Item) : JValue :=
  .obj [("id", .num it.id), ("type", .str it.type), ("data", it.data),
        ("timestamp", .str it.timestamp)]

/-- Serialization of `dataStore.stats`. -/
def statsToJson (s : Stats) : JValue :=
  .obj [("totalRequests", .num s.totalRequests), ("textItems", .num s.textItems),
        ("numericItems", .num s.numericItems), ("objectItems", .num s.objectItems)]

/-- Serialization of the whole `dataStore` (the GET response's `data` field). -/
def dataStoreToJson (st : DataStore) : JValue :=
  .obj [("items", .arr (st.items.map itemToJson)), ("stats", statsToJson st.stats)]

/-- The GET `/json` response body (lines 62–68). -/
def getEnvelope (st : DataStore) : JValue :=
  .obj [("status", .str "success"), ("loopback_interface", .str LOOPBACK_HOST),
        ("port", .num PORT), ("data", dataStoreToJson st)]

/-- The 413 response body of the body-size-limit branch (lines 80–84). -/
def tooLargeEnvelope : JValue :=
  .obj [("status", .str "error"), ("message", .str "Request body too large (max 1MB)")]

/-- The 201 response body of the POST success branch (lines 112–116). -/
def storedEnvelope (item : Item) : JValue :=
  .obj [("status", .str "success"),
        ("message", .str "JSON data stored via loopback interface"),
        ("item", itemToJson item)]

/-- The 400 response body of the POST catch branch (lines 121–126), with
`errMsg` the thrown exception's `message`. -/
def invalidJsonEnvelope (errMsg : String) : JValue :=
  .obj [("status", .str "error"), ("message", .str "Invalid JSON"),
        ("error", .str errMsg)]

/-- The 404 response body (lines 133–136). -/
def notFoundEnvelope : JValue :=
  .obj [("status", .str "error"), ("message", .str "Endpoint not found")]

/-- Per-connection state while the POST branch consumes `data` events:
the accumulated `body` string, whether `req.connection.destroy()` has run,
and the responses sent so far. -/
structure ConnState where
  body : String
  destroyed : Bool
  responses : List Response
deriving Repr

/-- One `data` event (lines 70–89): append the chunk, then if the
accumulated body exceeds `MAX_BODY_SIZE` send the 413 envelope and destroy
the connection.  A destroyed socket delivers no further `data` events. -/
def onData (st : ConnState) (chunk : String) : ConnState :=
  if st.destroyed then st
  else
    let body := st.body ++ chunk
    if body.length > MAX_BODY_SIZE then
      { body := body, destroyed := true,
        responses := st.responses ++ [{ httpStatus := 413, body := some tooLargeEnvelope }] }
    else { st with body := body }

/-- What the handler produced for one request: the data store afterwards,
every `res.end` call made, and whether the connection was destroyed. -/
structure HandlerResult where
  store : DataStore
  responses : List Response
  connectionDestroyed : Bool
deriving Repr

/-- The POST `/json` branch (lines 72–130): fold the `data` events, then —
unless the socket was destroyed by the size check — run the `end` handler:
`JSON.parse` the body, categorize, store the item, bump the matching
counter and answer 201, or answer 400 when parsing throws. -/
def handlePost (parse : String → Except String JValue) (store : DataStore)
    (r : Request) : HandlerResult :=
  let conn := r.chunks.foldl onData { body := "", destroyed := false, responses := [] }
  if conn.destroyed then
    { store := store, responses := conn.responses, connectionDestroyed := true }
  else
    match parse conn.body with
    | .ok jsonData =>
      let dataType := categorizeData jsonData
      let item : Item := { id := store.items.length + 1, type := dataType,
                           data := jsonData, timestamp := r.now }
      let stats := store.stats
      let stats :=
        if dataType = "text" then { stats with textItems := stats.textItems + 1 }
        else if dataType = "numeric" then { stats with numericItems := stats.numericItems + 1 }
        else if dataType = "object" then { stats with objectItems := stats.objectItems + 1 }
        else stats
      { store := { items := store.items ++ [item], stats := stats },
        responses := conn.responses ++ [{ httpStatus := 201, body := some (storedEnvelope item) }],
        connectionDestroyed := false }
    | .error errMsg =>
      { store := store,
        responses := conn.responses ++ [{ httpStatus := 400, body := some (invalidJsonEnvelope errMsg) }],
        connectionDestroyed := false }

/-- The request handler passed to `http.createServer` (lines 45–138):
bump `totalRequests`, then dispatch on method/url exactly as the source's
early-return chain does. -/
def handleRequest (parse : String → Except String JValue) (store : DataStore)
    (r : Request) : HandlerResult :=
  let store := { store with
    stats := { store.stats with totalRequests := store.stats.totalRequests + 1 } }
  if r.method = "OPTIONS" then
    { store := store, responses := [{ httpStatus := 200, body := none }],
      connectionDestroyed := false }
  else if r.method = "GET" ∧ r.url = "/json" then
    { store := store, responses := [{ httpStatus := 200, body := some (getEnvelope store) }],
      connectionDestroyed := false }
  else if r.method = "POST" ∧ r.url = "/json" then
    handlePost parse store r
  else
    { store := store, responses := [{ httpStatus := 404, body := some notFoundEnvelope }],
      connectionDestroyed := false }

/-- The server's state after a sequence of requests, starting from `store`. -/
def runRequests (parse : String → Except String JValue) (store : DataStore)
    (rs : List Request) : DataStore :=
  rs.foldl (fun s r => (handleRequest parse s r).store) store

/-- The number of JSON envelopes among a list of responses (responses whose
body is non-empty). -/
def envelopeCount (resps : List Response) : Nat :=
  (resps.filterMap (fun resp => resp.body)).length

/-- The accumulated body string of a request, as `body += chunk.toString()`
builds it. -/
def accumulatedBody (chunks : List String) : String :=
  chunks.foldl (fun b c => b ++ c) ""

/-- The classifier only ever returns one of its five literal tags. -/
lemma categorizeData_cases (v : JValue) :
    categorizeData v = "text" ∨ categorizeData v = "numeric" ∨
    categorizeData v = "array" ∨ categorizeData v = "object" ∨
    categorizeData v = "unknown" := by
  cases v <;> simp [categorizeData, jsTypeof, jsIsArray]

/-- C1, counterexample: `categorizeData` tags numbers `"numeric"`, not
`"number"`, and `null` is tagged `"object"`, not `"unknown"`. -/
theorem claim_c1_counterexample :
    categorizeData (JValue.num 42) = "numeric" ∧
    categorizeData (JValue.num 42) ≠ "number" ∧
    categorizeData JValue.null = "object" ∧
    categorizeData JValue.null ≠ "unknown" := by
  refine ⟨rfl, ?_, rfl, ?_⟩ <;> decide

/-- C1, amended: the classifier assigns `text` to strings, `numeric` (the
code's tag, not `number`) to numbers, `array` to lists, `object` to keyed
mappings and also to `null` (since `typeof null === 'object'`), and
`unknown` only to booleans. -/
theorem claim_c1_amended (v : JValue) :
    categorizeData v =
      match v with
      | .str _ => "text"
      | .num _ => "numeric"
      | .arr _ => "array"
      | .obj _ => "object"
      | .null => "object"
      | .bool _ => "unknown" := by
  cases v <;> rfl

/-- C2, counterexample: `null` does not fall through to `unknown` — it is
caught by the `typeof data === 'object'` branch. -/
theorem claim_c2_counterexample :
    categorizeData JValue.null = "object" ∧
    categorizeData JValue.null ≠ "unknown" := by
  refine ⟨rfl, ?_⟩; decide

/-- C2, amended: the classifier has no branch for booleans, so `true` and
`false` are assigned `unknown`; `null`, however, satisfies
`typeof data === 'object'` in JavaScript and is assigned `object`. -/
theorem claim_c2_amended :
    (∀ b : Bool, categorizeData (JValue.bool b) = "unknown") ∧
    categorizeData JValue.null = "object" :=
  ⟨fun b => by cases b <;> rfl, rfl⟩

/-- C3: classification looks only at the top-level value — every keyed
mapping is `object` whatever its field values (in particular
`{"value": 42}`), and every list is `array`, never `object`, whatever its
elements. -/
theorem claim_c3 :
    (∀ fields : List (String × JValue), categorizeData (JValue.obj fields) = "object") ∧
    categorizeData (JValue.obj [("value", JValue.num 42)]) = "object" ∧
    (∀ elems : List JValue, categorizeData (JValue.arr elems) = "array") ∧
    (∀ elems : List JValue, categorizeData (JValue.arr elems) ≠ "object") :=
  ⟨fun _ => rfl, rfl, fun _ => rfl,
   fun es h => by simp [categorizeData, jsTypeof, jsIsArray] at h⟩

/-- C6: the host constant is the loopback address, the program's only
`listen` call uses it, and hence every bound host is `127.0.0.1`. -/
theorem claim_c6 :
    LOOPBACK_HOST = "127.0.0.1" ∧
    listenCalls = [(PORT, LOOPBACK_HOST)] ∧
    listenHosts = ["127.0.0.1"] :=
  ⟨rfl, rfl, rfl⟩

/-- The one response the size-limit branch can send. -/
def resp413 : Response := { httpStatus := 413, body := some tooLargeEnvelope }

/-- The connection-state invariant of the `data`-event fold: responses have
been sent iff the socket was destroyed, and then exactly the 413 one. -/
def ConnInv (st : ConnState) : Prop :=
  st.responses = if st.destroyed then [resp413] else []

lemma connInv_onData {st : ConnState} (h : ConnInv st) (c : String) :
    ConnInv (onData st c) := by
  unfold ConnInv at *
  by_cases hd : st.destroyed <;> simp [onData, hd, h] at *
  split <;> simp [h, resp413]

lemma connInv_foldl (cs : List String) {st : ConnState} (h : ConnInv st) :
    ConnInv (cs.foldl onData st) := by
  induction cs generalizing st with
  | nil => exact h
  | cons c cs ih => exact ih (connInv_onData h c)

/-- A destroyed socket delivers no further `data` events: the fold is inert. -/
lemma foldl_onData_destroyed (cs : List String) {st : ConnState}
    (h : st.destroyed = true) : cs.foldl onData st = st := by
  induction cs with
  | nil => rfl
  | cons c cs ih => simpa [onData, h] using ih

/-- If the fold ends undestroyed, the accumulated body is the concatenation
of all chunks onto the starting body. -/
lemma foldl_onData_body (cs : List String) {st : ConnState}
    (h : (cs.foldl onData st).destroyed = false) (h0 : st.destroyed = false) :
    (cs.foldl onData st).body = cs.foldl (fun b c => b ++ c) st.body := by
  induction cs generalizing st with
  | nil => rfl
  | cons c cs ih =>
    by_cases hb : MAX_BODY_SIZE < st.body.length + c.length
    · exfalso
      have hdes : (onData st c).destroyed = true := by simp [onData, h0, hb]
      rw [List.foldl_cons, foldl_onData_destroyed cs hdes, hdes] at h
      exact absurd h (by decide)
    · have hstep : onData st c = { st with body := st.body ++ c } := by
        simp [onData, h0, hb]
      rw [List.foldl_cons, hstep] at h ⊢
      exact ih h h0

/-- If the chunks' total length exceeds the limit, the size check fires and
destroys the connection. -/
lemma foldl_onData_oversize (cs : List String) {st : ConnState}
    (h0 : st.destroyed = false) (hlen : st.body.length ≤ MAX_BODY_SIZE)
    (hover : MAX_BODY_SIZE < (cs.foldl (fun b c => b ++ c) st.body).length) :
    (cs.foldl onData st).destroyed = true := by
  induction cs generalizing st with
  | nil => exact absurd hover (by simpa using hlen)
  | cons c cs ih =>
    by_cases hb : MAX_BODY_SIZE < st.body.length + c.length
    · have hdes : (onData st c).destroyed = true := by simp [onData, h0, hb]
      rw [List.foldl_cons, foldl_onData_destroyed cs hdes]
      exact hdes
    · have hstep : onData st c = { st with body := st.body ++ c } := by
        simp [onData, h0, hb]
      rw [List.foldl_cons, hstep]
      exact ih h0 (by simpa using Nat.le_of_not_lt hb) hover

/-- C10: a GET `/json` request leaves the items list and the three type
counters untouched; of the server's state only `totalRequests` changes,
by exactly one. -/
theorem claim_c10 (parse : String → Except String JValue) (st : DataStore)
    (r : Request) (h1 : r.method = "GET") (h2 : r.url = "/json") :
    (handleRequest parse st r).store.items = st.items ∧
    (handleRequest parse st r).store.stats.textItems = st.stats.textItems ∧
    (handleRequest parse st r).store.stats.numericItems = st.stats.numericItems ∧
    (handleRequest parse st r).store.stats.objectItems = st.stats.objectItems ∧
    (handleRequest parse st r).store.stats.totalRequests = st.stats.totalRequests + 1 := by
  simp [handleRequest, h1, h2]

/-- C10 witness: a concrete GET `/json` request against the initial store. -/
theorem claim_c10_witness :
    ({ method := "GET", url := "/json", chunks := [], now := "t" } : Request).method = "GET" ∧
    ({ method := "GET", url := "/json", chunks := [], now := "t" } : Request).url = "/json" ∧
    ((handleRequest (fun _ => Except.error "e") initialDataStore
        { method := "GET", url := "/json", chunks := [], now := "t" }).store.items =
          initialDataStore.items ∧
      (handleRequest (fun _ => Except.error "e") initialDataStore
        { method := "GET", url := "/json", chunks := [], now := "t" }).store.stats.textItems =
          initialDataStore.stats.textItems ∧
      (handleRequest (fun _ => Except.error "e") initialDataStore
        { method := "GET", url := "/json", chunks := [], now := "t" }).store.stats.numericItems =
          initialDataStore.stats.numericItems ∧
      (handleRequest (fun _ => Except.error "e") initialDataStore
        { method := "GET", url := "/json", chunks := [], now := "t" }).store.stats.objectItems =
          initialDataStore.stats.objectItems ∧
      (handleRequest (fun _ => Except.error "e") initialDataStore
        { method := "GET", url := "/json", chunks := [], now := "t" }).store.stats.totalRequests =
          initialDataStore.stats.totalRequests + 1) :=
  ⟨rfl, rfl, claim_c10 (fun _ => Except.error "e") initialDataStore
    { method := "GET", url := "/json", chunks := [], now := "t" } rfl rfl⟩

/-- Concatenating further chunks never shortens the accumulated body. -/
lemma le_length_foldl_append (cs : List String) (b : String) :
    b.length ≤ (cs.foldl (fun x c => x ++ c) b).length := by
  induction cs generalizing b with
  | nil => exact Nat.le_refl _
  | cons c cs ih =>
    calc b.length ≤ (b ++ c).length := by simp
    _ ≤ _ := ih (b ++ c)

/-- When the chunks' total length stays within the limit, the size check
never fires: the fold ends undestroyed, with the full body and no
responses sent. -/
lemma foldl_onData_within (cs : List String) {st : ConnState}
    (h0 : st.destroyed = false)
    (h : (cs.foldl (fun b c => b ++ c) st.body).length ≤ MAX_BODY_SIZE) :
    (cs.foldl onData st).destroyed = false ∧
    (cs.foldl onData st).body = cs.foldl (fun b c => b ++ c) st.body ∧
    (cs.foldl onData st).responses = st.responses := by
  induction cs generalizing st with
  | nil => exact ⟨h0, rfl, rfl⟩
  | cons c cs ih =>
    have hle : (st.body ++ c).length ≤ MAX_BODY_SIZE :=
      Nat.le_trans (le_length_foldl_append cs (st.body ++ c)) h
    have hstep : onData st c = { st with body := st.body ++ c } := by
      simp [onData, h0]
      simpa using hle
    rw [List.foldl_cons, hstep]
    exact ih h0 h

/-- C4: when the (within-limit) body fails JSON parsing, the POST branch
answers with exactly one response: the 400 `Invalid JSON` error envelope —
status `error`, non-empty message — and the handler returns normally with
the items list and all type counters unchanged, so subsequent independent
requests see the same stored data. -/
theorem claim_c4 (parse : String → Except String JValue) (st : DataStore)
    (r : Request) (msg : String)
    (h1 : r.method = "POST") (h2 : r.url = "/json")
    (h3 : (accumulatedBody r.chunks).length ≤ MAX_BODY_SIZE)
    (h4 : parse (accumulatedBody r.chunks) = Except.error msg) :
    (handleRequest parse st r).responses =
      [{ httpStatus := 400, body := some (invalidJsonEnvelope msg) }] ∧
    invalidJsonEnvelope msg =
      JValue.obj [("status", JValue.str "error"), ("message", JValue.str "Invalid JSON"),
                  ("error", JValue.str msg)] ∧
    "Invalid JSON" ≠ "" ∧
    (handleRequest parse st r).store.items = st.items ∧
    (handleRequest parse st r).store.stats.textItems = st.stats.textItems ∧
    (handleRequest parse st r).store.stats.numericItems = st.stats.numericItems ∧
    (handleRequest parse st r).store.stats.objectItems = st.stats.objectItems ∧
    (handleRequest parse st r).store.stats.totalRequests = st.stats.totalRequests + 1 := by
  have hw := @foldl_onData_within r.chunks
    { body := "", destroyed := false, responses := [] } rfl h3
  obtain ⟨hdes, hbody, hresp⟩ := hw
  rw [accumulatedBody] at h4
  rw [← hbody] at h4
  refine ⟨?_, rfl, by decide, ?_, ?_, ?_, ?_, ?_⟩ <;>
    simp [handleRequest, handlePost, h1, h2, hdes, hresp, h4]

/-- C4 witness: the body `not json` with a decoder that rejects it. -/
theorem claim_c4_witness :
    (accumulatedBody ["not json"]).length ≤ MAX_BODY_SIZE ∧
    ((fun b => if b = "not json" then Except.error "Unexpected token" else Except.ok JValue.null)
        (accumulatedBody ["not json"]) = Except.error "Unexpected token") ∧
    (handleRequest
        (fun b => if b = "not json" then Except.error "Unexpected token" else Except.ok JValue.null)
        initialDataStore
        { method := "POST", url := "/json", chunks := ["not json"], now := "t" }).responses =
      [{ httpStatus := 400, body := some (invalidJsonEnvelope "Unexpected token") }] :=
  ⟨by decide, by rfl,
   (claim_c4
      (fun b => if b = "not json" then Except.error "Unexpected token" else Except.ok JValue.null)
      initialDataStore
      { method := "POST", url := "/json", chunks := ["not json"], now := "t" }
      "Unexpected token" rfl rfl (by decide) (by rfl)).1⟩

/-- C8: a POST `/json` whose accumulated body exceeds 1 MB gets the single
413 `error` response, the connection is destroyed, and nothing is stored:
items and all type counters are unchanged. -/
theorem claim_c8 (parse : String → Except String JValue) (st : DataStore)
    (r : Request)
    (h1 : r.method = "POST") (h2 : r.url = "/json")
    (h3 : MAX_BODY_SIZE < (accumulatedBody r.chunks).length) :
    (handleRequest parse st r).responses =
      [{ httpStatus := 413, body := some tooLargeEnvelope }] ∧
    tooLargeEnvelope =
      JValue.obj [("status", JValue.str "error"),
                  ("message", JValue.str "Request body too large (max 1MB)")] ∧
    (handleRequest parse st r).connectionDestroyed = true ∧
    (handleRequest parse st r).store.items = st.items ∧
    (handleRequest parse st r).store.stats.textItems = st.stats.textItems ∧
    (handleRequest parse st r).store.stats.numericItems = st.stats.numericItems ∧
    (handleRequest parse st r).store.stats.objectItems = st.stats.objectItems := by
  rw [accumulatedBody] at h3
  have hdes := @foldl_onData_oversize r.chunks
    { body := "", destroyed := false, responses := [] } rfl (Nat.zero_le _) h3
  have hinv := @connInv_foldl r.chunks
    { body := "", destroyed := false, responses := [] } rfl
  rw [ConnInv, hdes] at hinv
  refine ⟨?_, rfl, ?_, ?_, ?_, ?_, ?_⟩ <;>
    simp [handleRequest, handlePost, h1, h2, hdes, hinv, resp413]

/-- C8 witness: a single chunk of 1 MB + 1 bytes. -/
theorem claim_c8_witness :
    MAX_BODY_SIZE <
      (accumulatedBody [String.mk (List.replicate (1024 * 1024 + 1) 'a')]).length ∧
    (handleRequest (fun _ => Except.ok JValue.null) initialDataStore
        { method := "POST", url := "/json",
          chunks := [String.mk (List.replicate (1024 * 1024 + 1) 'a')],
          now := "t" }).responses =
      [{ httpStatus := 413, body := some tooLargeEnvelope }] :=
  have hlen : MAX_BODY_SIZE <
      (accumulatedBody [String.mk (List.replicate (1024 * 1024 + 1) 'a')]).length := by
    show MAX_BODY_SIZE < ("" ++ String.mk (List.replicate (1024 * 1024 + 1) 'a')).length
    rw [String.length_append, String.length_empty, String.length_mk,
      List.length_replicate, Nat.zero_add, MAX_BODY_SIZE]
    decide
  ⟨hlen,
   (claim_c8 (fun _ => Except.ok JValue.null) initialDataStore
      { method := "POST", url := "/json",
        chunks := [String.mk (List.replicate (1024 * 1024 + 1) 'a')],
        now := "t" } rfl rfl hlen).1⟩

/-- The POST branch always sends exactly one response carrying an
envelope: the 413 when the size check destroyed the socket, otherwise the
single 201 or 400 from the `end` handler. -/
lemma handlePost_one_response (parse : String → Except String JValue)
    (st : DataStore) (r : Request) :
    (handlePost parse st r).responses.length = 1 ∧
    envelopeCount (handlePost parse st r).responses = 1 := by
  have hinv := @connInv_foldl r.chunks
    { body := "", destroyed := false, responses := [] } rfl
  rw [ConnInv] at hinv
  by_cases hd : (r.chunks.foldl onData
      { body := "", destroyed := false, responses := [] }).destroyed
  · rw [hd] at hinv
    constructor <;> simp [handlePost, hd, hinv, resp413, envelopeCount]
  · rw [Bool.not_eq_true] at hd
    rw [hd] at hinv
    cases hp : parse (r.chunks.foldl onData
        { body := "", destroyed := false, responses := [] }).body <;>
      constructor <;> simp [handlePost, hd, hinv, hp, envelopeCount]

/-- C7, counterexample: an OPTIONS request is answered by `res.end()` with
no body — one HTTP response but zero JSON envelopes, so the handler does
not send an envelope on the OPTIONS path. -/
theorem claim_c7_counterexample :
    (handleRequest (fun _ => Except.error "e") initialDataStore
        { method := "OPTIONS", url := "/json", chunks := [], now := "t" }).responses =
      [{ httpStatus := 200, body := none }] ∧
    envelopeCount
      (handleRequest (fun _ => Except.error "e") initialDataStore
        { method := "OPTIONS", url := "/json", chunks := [], now := "t" }).responses = 0 :=
  ⟨rfl, rfl⟩

/-- C7, amended: every request is answered by exactly one HTTP response —
never zero, never more than one, including the oversized-body,
parse-failure and unknown-endpoint paths — and that response carries
exactly one JSON envelope on every path except OPTIONS, whose response has
an empty body (zero envelopes). -/
theorem claim_c7_amended (parse : String → Except String JValue)
    (st : DataStore) (r : Request) :
    (handleRequest parse st r).responses.length = 1 ∧
    (r.method = "OPTIONS" →
      envelopeCount (handleRequest parse st r).responses = 0) ∧
    (r.method ≠ "OPTIONS" →
      envelopeCount (handleRequest parse st r).responses = 1) := by
  by_cases hopt : r.method = "OPTIONS"
  · constructor
    · simp [handleRequest, hopt]
    · constructor
      · intro; simp [handleRequest, hopt, envelopeCount]
      · intro h; exact absurd hopt h
  · by_cases hget : r.method = "GET" ∧ r.url = "/json"
    · refine ⟨?_, fun h => absurd h hopt, fun _ => ?_⟩ <;>
        simp [handleRequest, hopt, hget, envelopeCount]
    · by_cases hpost : r.method = "POST" ∧ r.url = "/json"
      · have hp := handlePost_one_response parse
          { st with stats := { st.stats with
              totalRequests := st.stats.totalRequests + 1 } } r
        refine ⟨?_, fun h => absurd h hopt, fun _ => ?_⟩ <;>
          · simp only [handleRequest, hopt, hget, hpost, if_false, if_true,
              if_neg, if_pos]
            first
            | exact hp.1
            | exact hp.2
      · refine ⟨?_, fun h => absurd h hopt, fun _ => ?_⟩ <;>
          simp [handleRequest, hopt, hget, hpost, envelopeCount]

/-- C7 witness for the amended claim: a 404 path request gets one response
and one envelope. -/
theorem claim_c7_witness :
    (({ method := "GET", url := "/other", chunks := [], now := "t" } : Request).method ≠
      "OPTIONS") ∧
    envelopeCount
      (handleRequest (fun _ => Except.error "e") initialDataStore
        { method := "GET", url := "/other", chunks := [], now := "t" }).responses = 1 :=
  ⟨by decide,
   (claim_c7_amended (fun _ => Except.error "e") initialDataStore
      { method := "GET", url := "/other", chunks := [], now := "t" }).2.2 (by decide)⟩

/-- The success envelope as the spec's words describe it —
`{"status": "ok", "kind": ..., "value": ...}` — stated only to be compared
with the envelope the source actually builds. -/
def specOkEnvelope (kind : String) (value : JValue) : JValue :=
  .obj [("status", .str "ok"), ("kind", .str kind), ("value", value)]

/-- C5, counterexample: for the concrete submission `"hello"`, the POST
success response carries the source's envelope — status `success` with a
`message` and an `item` field — which matches `{"status":"ok","kind":...,
"value":...}` for no kind/value pair. -/
theorem claim_c5_counterexample :
    (handleRequest (fun _ => Except.ok (JValue.str "hello")) initialDataStore
        { method := "POST", url := "/json", chunks := ["\"hello\""], now := "t" }).responses =
      [{ httpStatus := 201,
         body := some (storedEnvelope
           { id := 1, type := "text", data := JValue.str "hello", timestamp := "t" }) }] ∧
    ¬ ∃ kind value,
        (handleRequest (fun _ => Except.ok (JValue.str "hello")) initialDataStore
          { method := "POST", url := "/json", chunks := ["\"hello\""], now := "t" }).responses =
        [{ httpStatus := 201, body := some (specOkEnvelope kind value) }] := by
  constructor
  · rfl
  · rintro ⟨kind, value, h⟩
    rw [show (handleRequest (fun _ => Except.ok (JValue.str "hello")) initialDataStore
        { method := "POST", url := "/json", chunks := ["\"hello\""], now := "t" }).responses =
      [{ httpStatus := 201,
         body := some (storedEnvelope
           { id := 1, type := "text", data := JValue.str "hello", timestamp := "t" }) }] from rfl] at h
    simp [storedEnvelope, specOkEnvelope, itemToJson] at h

/-- C5, amended: for every successfully parsed (within-limit) POST `/json`
submission `v`, the response envelope is
`{"status": "success", "message": "JSON data stored via loopback interface",
"item": {"id": ..., "type": <kind>, "data": <echoed v>, "timestamp": ...}}`:
the decoded value is echoed unchanged in `item.data`, its kind — one of
text/numeric/array/object/unknown — is in `item.type`, and the status is
`success`, not `ok`. -/
theorem claim_c5_amended (parse : String → Except String JValue) (st : DataStore)
    (r : Request) (v : JValue)
    (h1 : r.method = "POST") (h2 : r.url = "/json")
    (h3 : (accumulatedBody r.chunks).length ≤ MAX_BODY_SIZE)
    (h4 : parse (accumulatedBody r.chunks) = Except.ok v) :
    (handleRequest parse st r).responses =
      [{ httpStatus := 201,
         body := some (storedEnvelope
           { id := st.items.length + 1, type := categorizeData v, data := v,
             timestamp := r.now }) }] ∧
    storedEnvelope
        { id := st.items.length + 1, type := categorizeData v, data := v,
          timestamp := r.now } =
      JValue.obj [("status", JValue.str "success"),
                  ("message", JValue.str "JSON data stored via loopback interface"),
                  ("item", JValue.obj
                    [("id", JValue.num (st.items.length + 1)),
                     ("type", JValue.str (categorizeData v)),
                     ("data", v),
                     ("timestamp", JValue.str r.now)])] ∧
    (categorizeData v = "text" ∨ categorizeData v = "numeric" ∨
     categorizeData v = "array" ∨ categorizeData v = "object" ∨
     categorizeData v = "unknown") := by
  have hw := @foldl_onData_within r.chunks
    { body := "", destroyed := false, responses := [] } rfl h3
  obtain ⟨hdes, hbody, hresp⟩ := hw
  rw [accumulatedBody] at h4
  rw [← hbody] at h4
  refine ⟨?_, rfl, categorizeData_cases v⟩
  simp [handleRequest, handlePost, h1, h2, hdes, hresp, h4]

/-- C5 witness for the amended claim: the bare string submission `"hello"`. -/
theorem claim_c5_witness :
    (accumulatedBody ["\"hello\""]).length ≤ MAX_BODY_SIZE ∧
    (handleRequest (fun _ => Except.ok (JValue.str "hello")) initialDataStore
        { method := "POST", url := "/json", chunks := ["\"hello\""], now := "t" }).responses =
      [{ httpStatus := 201,
         body := some (storedEnvelope
           { id := 1, type := categorizeData (JValue.str "hello"),
             data := JValue.str "hello", timestamp := "t" }) }] :=
  ⟨by decide,
   (claim_c5_amended (fun _ => Except.ok (JValue.str "hello")) initialDataStore
      { method := "POST", url := "/json", chunks := ["\"hello\""], now := "t" }
      (JValue.str "hello") rfl rfl (by decide) (by rfl)).1⟩

/-- Whether a stored item's type is one the stats counters track: the
`text`, `numeric` and `object` kinds have counters; `array` and `unknown`
have none. -/
def typeCounted (it : Item) : Bool :=
  it.type == "text" || it.type == "numeric" || it.type == "object"

/-- The store invariant: the three type counters sum to the number of
stored items of a counted kind. -/
def StoreInv (st : DataStore) : Prop :=
  st.stats.textItems + st.stats.numericItems + st.stats.objectItems =
    (st.items.filter typeCounted).length

lemma storeInv_initial : StoreInv initialDataStore := rfl

lemma storeInv_handlePost (parse : String → Except String JValue)
    (st : DataStore) (r : Request) (h : StoreInv st) :
    StoreInv (handlePost parse st r).store := by
  by_cases hd : (r.chunks.foldl onData
      { body := "", destroyed := false, responses := [] }).destroyed
  · simpa [handlePost, hd] using h
  · rw [Bool.not_eq_true] at hd
    cases hp : parse (r.chunks.foldl onData
        { body := "", destroyed := false, responses := [] }).body with
    | error e => simpa [handlePost, hd, hp] using h
    | ok v =>
      rw [StoreInv] at h
      rcases categorizeData_cases v with hc | hc | hc | hc | hc <;>
        simp [handlePost, hd, hp, StoreInv, hc, typeCounted,
          List.filter_append, h] <;>
        omega

lemma storeInv_handleRequest (parse : String → Except String JValue)
    (st : DataStore) (r : Request) (h : StoreInv st) :
    StoreInv (handleRequest parse st r).store := by
  have hbump : StoreInv { st with stats :=
      { st.stats with totalRequests := st.stats.totalRequests + 1 } } := h
  by_cases hopt : r.method = "OPTIONS"
  · simpa [handleRequest, hopt] using hbump
  · by_cases hget : r.method = "GET" ∧ r.url = "/json"
    · simpa [handleRequest, hopt, hget] using hbump
    · by_cases hpost : r.method = "POST" ∧ r.url = "/json"
      · have := storeInv_handlePost parse { st with stats :=
          { st.stats with totalRequests := st.stats.totalRequests + 1 } } r hbump
        simpa [handleRequest, hopt, hget, hpost] using this
      · simpa [handleRequest, hopt, hget, hpost] using hbump

lemma storeInv_run (parse : String → Except String JValue) (rs : List Request)
    {st : DataStore} (h : StoreInv st) : StoreInv (runRequests parse st rs) := by
  induction rs generalizing st with
  | nil => exact h
  | cons r rs ih => exact ih (storeInv_handleRequest parse st r h)

/-- Filtering drops at least one element when some member fails the
predicate. -/
lemma length_filter_lt_of_mem {α : Type} (p : α → Bool) (l : List α) (x : α)
    (hx : x ∈ l) (hp : p x = false) : (l.filter p).length < l.length := by
  induction l with
  | nil => cases hx
  | cons a l ih =>
    cases hx with
    | head =>
      rw [List.filter_cons, hp]
      exact Nat.lt_succ_of_le (List.length_filter_le p l)
    | tail _ hmem =>
      rw [List.filter_cons]
      by_cases hpa : p a = true
      · simpa [hpa] using Nat.succ_lt_succ (ih hmem)
      · rw [Bool.not_eq_true] at hpa
        simpa [hpa] using Nat.lt_succ_of_lt (ih hmem)

/-- C9: after any sequence of requests from the initial store, the three
type counters sum to at most the number of stored items, strictly fewer
whenever an item of kind `array` or `unknown` has been stored — such items
are appended to the store but counted by no type counter. -/
theorem claim_c9 (parse : String → Except String JValue) (rs : List Request) :
    (runRequests parse initialDataStore rs).stats.textItems +
        (runRequests parse initialDataStore rs).stats.numericItems +
        (runRequests parse initialDataStore rs).stats.objectItems ≤
      (runRequests parse initialDataStore rs).items.length ∧
    ((∃ it ∈ (runRequests parse initialDataStore rs).items,
        it.type = "array" ∨ it.type = "unknown") →
      (runRequests parse initialDataStore rs).stats.textItems +
          (runRequests parse initialDataStore rs).stats.numericItems +
          (runRequests parse initialDataStore rs).stats.objectItems <
        (runRequests parse initialDataStore rs).items.length) := by
  have h := storeInv_run parse rs storeInv_initial
  rw [StoreInv] at h
  constructor
  · rw [h]; exact List.length_filter_le _ _
  · rintro ⟨it, hmem, hty⟩
    rw [h]
    refine length_filter_lt_of_mem typeCounted _ it hmem ?_
    rcases hty with h1 | h1 <;> simp [typeCounted, h1]

/-- C9 witness: storing one array submission leaves all counters at zero
while the store holds one item, so the sum is strictly below the length. -/
theorem claim_c9_witness :
    (∃ it ∈ (runRequests (fun _ => Except.ok (JValue.arr []))
        initialDataStore
        [{ method := "POST", url := "/json", chunks := ["[]"], now := "t" }]).items,
      it.type = "array" ∨ it.type = "unknown") ∧
    (runRequests (fun _ => Except.ok (JValue.arr []))
        initialDataStore
        [{ method := "POST", url := "/json", chunks := ["[]"], now := "t" }]).stats.textItems +
      (runRequests (fun _ => Except.ok (JValue.arr []))
        initialDataStore
        [{ method := "POST", url := "/json", chunks := ["[]"], now := "t" }]).stats.numericItems +
      (runRequests (fun _ => Except.ok (JValue.arr []))
        initialDataStore
        [{ method := "POST", url := "/json", chunks := ["[]"], now := "t" }]).stats.objectItems <
    (runRequests (fun _ => Except.ok (JValue.arr []))
        initialDataStore
        [{ method := "POST", url := "/json", chunks := ["[]"], now := "t" }]).items.length :=
  have hmem : ∃ it ∈ (runRequests (fun _ => Except.ok (JValue.arr []))
      initialDataStore
      [{ method := "POST", url := "/json", chunks := ["[]"], now := "t" }]).items,
      it.type = "array" ∨ it.type = "unknown" :=
    ⟨{ id := 1, type := "array", data := JValue.arr [], timestamp := "t" },
     List.Mem.head _, Or.inl rfl⟩
  ⟨hmem,
   (claim_c9 (fun _ => Except.ok (JValue.arr []))
      [{ method := "POST", url := "/json", chunks := ["[]"], now := "t" }]).2 hmem⟩
